import Mathlib

/-!
Shallow embedding of `src/main.rs` of the flappy_bevy repository.

Rust `f32` values are modelled as rationals (`ℚ`); the arithmetic in the
program (sums, differences, products by constants, halving) is exact on the
inputs the claims quantify over, and all comparisons are strict or non-strict
order comparisons on those rationals.

The bevy ECS world is modelled as a list of entities; each entity is a record
of the optional components the program attaches (`Bird`, `Pipe`, `PipeTimer`,
`Collider`, `CleanOnSceneChange`, `Velocity`, `Gravity`, `Interaction`,
`Transform::translation`).  Each bevy system becomes a Lean function on that
world (or on the components it queries), translated line by line from the
source.
-/

namespace FlappyBevy

/-- `const WIDTH: f32 = 1280.0 / 3.0;` (main.rs line 4). -/
def WIDTH : ℚ := 1280 / 3

/-- `const HEIGHT: f32 = 720.0 / 3.0;` (main.rs line 5). -/
def HEIGHT : ℚ := 720 / 3

/-- `const PIPE_HEIGHT: f32 = 160.0;` (main.rs line 7). -/
def PIPE_HEIGHT : ℚ := 160

/-- `const PIPE_WIDTH: f32 = 26.0;` (main.rs line 8). -/
def PIPE_WIDTH : ℚ := 26

/-- `const BIRD_HEIGHT: f32 = 12.0;` (main.rs line 9). -/
def BIRD_HEIGHT : ℚ := 12

/-- `const BIRD_WIDTH: f32 = 17.0;` (main.rs line 10). -/
def BIRD_WIDTH : ℚ := 17

/-- The round-state enum `AppState { Game, GameOver }` (main.rs lines 12-16).
`Game` is the spec's Playing state, `GameOver` its Ended state. -/
inductive AppState
  | Game
  | GameOver
deriving DecidableEq

/-- `bevy::math::Vec3`, the translation of a `Transform`. -/
structure Vec3 where
  x : ℚ
  y : ℚ
  z : ℚ
deriving DecidableEq

/-- `bevy::time::TimerMode` (only `Repeating` is used by the program). -/
inductive TimerMode
  | Once
  | Repeating
deriving DecidableEq

/-- Model of `bevy::time::Timer`: a duration, the accumulated elapsed time,
and the mode.  `Timer::from_seconds(d, mode)` starts with zero elapsed. -/
structure Timer where
  duration : ℚ
  elapsed : ℚ
  mode : TimerMode
deriving DecidableEq

/-- `Timer::from_seconds(d, mode)`: fresh timer with zero elapsed time. -/
def Timer.from_seconds (d : ℚ) (m : TimerMode) : Timer :=
  ⟨d, 0, m⟩

/-- `bevy::ui::Interaction` for the restart button. -/
inductive Interaction
  | Clicked
  | Hovered
  | None
deriving DecidableEq

/-- One ECS entity: every component the program ever attaches, each optional
(boolean fields model marker components that carry no data).
`bird` is the `Bird` marker, `pipe` the `Pipe` marker, `collider` the
`Collider` marker, `cleanOnSceneChange` the `CleanOnSceneChange` marker;
`pipeTimer` is the `PipeTimer` component, `velocity` the `Velocity(Vec2)`
component, `gravity` the `Gravity(bool)` component, `interaction` the UI
`Interaction`, and `translation` the `Transform` translation. -/
structure Entity where
  bird : Bool := false
  pipe : Bool := false
  pipeTimer : Option Timer := none
  collider : Bool := false
  cleanOnSceneChange : Bool := false
  velocity : Option (ℚ × ℚ) := none
  gravity : Option Bool := none
  interaction : Option Interaction := none
  translation : Vec3 := ⟨0, 0, 0⟩
deriving DecidableEq

/-- The ECS world: the set of spawned entities, in spawn order. -/
abbrev World : Type := List Entity

/-! ### The round state resource and `State::set`

`check_collisions` and `restart_game` mutate the `State<AppState>` resource
through bevy 0.9's `State::set`, which fails with `StateError::AlreadyInState`
when the requested state equals the current one and with
`StateError::StateAlreadyQueued` when a transition is already queued;
otherwise it queues the transition.  `StateRes` models the resource as the
current state plus the optionally queued next state. -/

/-- `bevy::ecs::schedule::StateError`, the error type of `State::set`. -/
inductive StateError
  | AlreadyInState
  | StateAlreadyQueued
deriving DecidableEq

/-- The `State<AppState>` resource: current state and queued transition. -/
structure StateRes where
  current : AppState
  queued : Option AppState
deriving DecidableEq

/-- Model of bevy 0.9 `State::set`: error if the requested state equals the
current state, error if a transition is already queued, otherwise queue the
requested state.  `Except.ok` carries the mutated resource. -/
def StateRes.set (s : StateRes) (next : AppState) : Except StateError StateRes :=
  if next = s.current then Except.error StateError.AlreadyInState
  else if s.queued.isSome then Except.error StateError.StateAlreadyQueued
  else Except.ok ⟨s.current, some next⟩

/-- The effect of `app_state.set(next).ok()`: apply the mutation when `set`
succeeds, discard the error (leaving the resource unchanged) when it fails. -/
def setOk (s : StateRes) (next : AppState) : StateRes :=
  match s.set next with
  | Except.ok s2 => s2
  | Except.error _ => s

/-! ### `check_collisions` (main.rs lines 161-183) -/

/-- The boolean condition of the `if` inside `check_collisions`' nested loops,
verbatim from main.rs lines 168-177: the four strict comparisons of the
axis-aligned rectangle test, or-ed with the two vertical bound tests on the
bird.  `b` is the bird translation, `c` the collider translation. -/
def check_hit (b c : Vec3) : Bool :=
  (decide (c.x + PIPE_WIDTH / 2 > b.x - BIRD_WIDTH / 2) &&
   decide (c.x - PIPE_WIDTH / 2 < b.x + BIRD_WIDTH / 2) &&
   decide (c.y + PIPE_HEIGHT / 2 > b.y - BIRD_HEIGHT / 2) &&
   decide (c.y - PIPE_HEIGHT / 2 < b.y + BIRD_HEIGHT / 2)) ||
  decide (b.y > HEIGHT / 2) ||
  decide (b.y < -HEIGHT / 2)

/-- Whether any iteration of `check_collisions`' nested loops takes the `if`
branch: some bird and some collider satisfy `check_hit`. -/
def hitDetected (birds colliders : List Vec3) : Bool :=
  birds.any fun b => colliders.any fun c => check_hit b c

/-- `check_collisions`: for every bird translation and every collider
translation, when `check_hit` holds run `app_state.set(AppState::GameOver).ok()`
on the state resource.  The nested `for` loops become nested folds over the
query results. -/
def check_collisions (birds colliders : List Vec3) (st : StateRes) : StateRes :=
  birds.foldl
    (fun s b =>
      colliders.foldl
        (fun s2 c => if check_hit b c then setOk s2 AppState.GameOver else s2)
        s)
    st

/-- The strict axis-aligned rectangle overlap between the bird (half-extents
`BIRD_WIDTH / 2`, `BIRD_HEIGHT / 2`) and an obstacle (half-extents
`PIPE_WIDTH / 2`, `PIPE_HEIGHT / 2`), as a proposition: the first four
conjuncts of the source's collision condition. -/
def strictOverlap (b c : Vec3) : Prop :=
  c.x + PIPE_WIDTH / 2 > b.x - BIRD_WIDTH / 2 ∧
  c.x - PIPE_WIDTH / 2 < b.x + BIRD_WIDTH / 2 ∧
  c.y + PIPE_HEIGHT / 2 > b.y - BIRD_HEIGHT / 2 ∧
  c.y - PIPE_HEIGHT / 2 < b.y + BIRD_HEIGHT / 2

instance (b c : Vec3) : Decidable (strictOverlap b c) := by
  unfold strictOverlap; infer_instance

/-- The bird's vertical position exceeds the field's upper or lower bound:
the last two disjuncts of the source's collision condition. -/
def outOfBounds (b : Vec3) : Prop :=
  b.y > HEIGHT / 2 ∨ b.y < -HEIGHT / 2

instance (b : Vec3) : Decidable (outOfBounds b) := by
  unfold outOfBounds; infer_instance

theorem check_hit_iff (b c : Vec3) :
    check_hit b c = true ↔ strictOverlap b c ∨ outOfBounds b := by
  simp [check_hit, strictOverlap, outOfBounds, and_assoc, or_assoc]

/-! ### `apply_velocity` (main.rs lines 203-208) -/

/-- The body of `apply_velocity` for one queried entity:
`transform.translation += Vec3::new(v.x, v.y, 0.0) * time.delta_seconds() * 100.0`.
Entities without a `Velocity` component are not in the query and are left
untouched. -/
def apply_velocity_entity (dt : ℚ) (e : Entity) : Entity :=
  match e.velocity with
  | some v =>
      { e with
        translation :=
          ⟨e.translation.x + v.1 * dt * 100,
           e.translation.y + v.2 * dt * 100,
           e.translation.z + 0 * dt * 100⟩ }
  | none => e

/-- `apply_velocity`: run the per-entity body over the whole world. -/
def apply_velocity (dt : ℚ) (w : World) : World :=
  w.map (apply_velocity_entity dt)

/-! ### `apply_gravity` (main.rs lines 193-201) -/

/-- `const GRAVITY: f32 = 7.0;` (main.rs line 194), the spec's GRAVITY_ACCEL. -/
def GRAVITY : ℚ := 7

/-- The body of `apply_gravity` for one queried entity: the query asks for
`(&mut Velocity, &Gravity, &Bird)`, so only bird entities carrying both a
velocity and a gravity flag are touched; if the flag is set,
`velocity.0.y -= GRAVITY * time.delta_seconds()`. -/
def apply_gravity_entity (dt : ℚ) (e : Entity) : Entity :=
  match e.velocity, e.gravity, e.bird with
  | some v, some g, true =>
      { e with velocity := some (if g then (v.1, v.2 - GRAVITY * dt) else v) }
  | _, _, _ => e

/-- `apply_gravity`: run the per-entity body over the whole world. -/
def apply_gravity (dt : ℚ) (w : World) : World :=
  w.map (apply_gravity_entity dt)

/-! ### `jump` (main.rs lines 210-222) -/

/-- `const JUMP_VELOCITY: f32 = 2.0;` (main.rs line 214). -/
def JUMP_VELOCITY : ℚ := 2

/-- The body of `jump`'s loop for one queried entity (query
`(&mut Velocity, &mut Gravity, &Bird)`): set the gravity flag and overwrite
the vertical velocity with `JUMP_VELOCITY`. -/
def jump_entity (e : Entity) : Entity :=
  match e.velocity, e.gravity, e.bird with
  | some v, some _, true =>
      { e with gravity := some true, velocity := some (v.1, JUMP_VELOCITY) }
  | _, _, _ => e

/-- `jump`: when the space key was just pressed (edge-triggered), run the
loop body over the world; otherwise do nothing. -/
def jump (justPressed : Bool) (w : World) : World :=
  if justPressed then w.map jump_entity else w

/-! ### `spawn_pipe_couple` (main.rs lines 117-159) and `spawn_pipes` -/

/-- `const PIPE_SPEED: f32 = 2.0;` (main.rs line 118). -/
def PIPE_SPEED : ℚ := 2

/-- `const MAX_HOLE_SIZE: f32 = 100.0;` (main.rs line 120). -/
def MAX_HOLE_SIZE : ℚ := 100

/-- `const MIN_HOLE_SIZE: f32 = 40.0;` (main.rs line 121). -/
def MIN_HOLE_SIZE : ℚ := 40

/-- `const MAX_HOLE_HEIGHT: f32 = HEIGHT / 4.0;` (main.rs line 122). -/
def MAX_HOLE_HEIGHT : ℚ := HEIGHT / 4

/-- `const MIN_HOLE_HEIGHT: f32 = -HEIGHT / 4.0;` (main.rs line 123). -/
def MIN_HOLE_HEIGHT : ℚ := -HEIGHT / 4

/-- `spawn_pipe_couple`, parameterised by the two samples that the source
draws with `rng.gen_range(MIN_HOLE_SIZE..MAX_HOLE_SIZE)` and
`rng.gen_range(MIN_HOLE_HEIGHT..MAX_HOLE_HEIGHT)` (the `rand` crate's
`gen_range(lo..hi)` returns a value in the half-open interval `[lo, hi)`).
Returns the pair (top pipe, bottom pipe) that the source spawns:
`top = PIPE_HEIGHT / 2.0 + hole_height + hole_size / 2.0`,
`bottom = -PIPE_HEIGHT / 2.0 + hole_height - hole_size / 2.0`, both pipes at
`x = WIDTH / 2.0` with velocity `(-PIPE_SPEED, 0)` and the `Pipe`,
`Collider` and `CleanOnSceneChange` components. -/
def spawn_pipe_couple (hole_size hole_height : ℚ) : Entity × Entity :=
  ({ pipe := true, collider := true, cleanOnSceneChange := true,
     velocity := some (-PIPE_SPEED, 0),
     translation := ⟨WIDTH / 2, PIPE_HEIGHT / 2 + hole_height + hole_size / 2, 0⟩ },
   { pipe := true, collider := true, cleanOnSceneChange := true,
     velocity := some (-PIPE_SPEED, 0),
     translation := ⟨WIDTH / 2, -PIPE_HEIGHT / 2 + hole_height - hole_size / 2, 0⟩ })

/-- The bottom edge of the upper (top) obstacle: its centre minus its
vertical half-extent `PIPE_HEIGHT / 2`. -/
def upperBottomEdge (e : Entity) : ℚ :=
  e.translation.y - PIPE_HEIGHT / 2

/-- The top edge of the lower (bottom) obstacle: its centre plus its
vertical half-extent `PIPE_HEIGHT / 2`. -/
def lowerTopEdge (e : Entity) : ℚ :=
  e.translation.y + PIPE_HEIGHT / 2

/-! ### `remove_offscreen_pipes` (main.rs lines 185-191) -/

/-- `remove_offscreen_pipes`: despawn every `Pipe` entity whose x translation
is below `-WIDTH / 1.5`. -/
def remove_offscreen_pipes (w : World) : World :=
  w.filter fun e => !(e.pipe && decide (e.translation.x < -WIDTH / 1.5))

/-! ### `game_setup` (main.rs lines 79-101) -/

/-- The bird entity spawned by `game_setup`: translation
`(-(WIDTH / 4.0), 0.0, 0.0)`, components `Bird`, `CleanOnSceneChange`,
`Velocity(Vec2::new(0.0, 0.0))`, `Gravity(false)`. -/
def birdStart : Entity :=
  { bird := true, cleanOnSceneChange := true,
    velocity := some (0, 0), gravity := some false,
    translation := ⟨-(WIDTH / 4), 0, 0⟩ }

/-- The timer entity spawned by `game_setup`:
`PipeTimer(Timer::from_seconds(1.0, TimerMode::Repeating))` plus
`CleanOnSceneChange`. -/
def timerStart : Entity :=
  { pipeTimer := some (Timer.from_seconds 1 TimerMode.Repeating),
    cleanOnSceneChange := true }

/-- `game_setup`: spawn the bird and the pipe timer. -/
def game_setup (w : World) : World :=
  w ++ [birdStart, timerStart]

/-! ### `scene_change_clean` (main.rs lines 224-228) -/

/-- `scene_change_clean`: despawn every entity carrying the
`CleanOnSceneChange` marker. -/
def scene_change_clean (w : World) : World :=
  w.filter fun e => !e.cleanOnSceneChange

/-! ### `create_gameover_ui` (main.rs lines 230-263) -/

/-- The game-over image entity: a sprite at `(0.0, 15.0, 0.0)` tagged
`CleanOnSceneChange`. -/
def gameoverImage : Entity :=
  { cleanOnSceneChange := true, translation := ⟨0, 15, 0⟩ }

/-- The restart button entity: a `ButtonBundle` (which carries an
`Interaction` component, initially `Interaction::None`) tagged
`CleanOnSceneChange`. -/
def restartButton : Entity :=
  { cleanOnSceneChange := true, interaction := some Interaction.None }

/-- `create_gameover_ui`: spawn the game-over image and the restart button. -/
def create_gameover_ui (w : World) : World :=
  w ++ [gameoverImage, restartButton]

/-! ### `restart_game` (main.rs lines 265-275) -/

/-- `restart_game`: for every changed `Interaction`, when it is `Clicked` run
`app_state.set(AppState::Game).unwrap()`.  The `unwrap` turns a `set` error
into a panic, modelled by propagating the error through `Except` (a
`StateError` result is the panic). -/
def restart_game (interactions : List Interaction) (st : StateRes) :
    Except StateError StateRes :=
  interactions.foldlM
    (fun s i =>
      match i with
      | Interaction.Clicked => s.set AppState.Game
      | _ => pure s)
    st

/-! ### The schedule built in `main` (main.rs lines 18-52)

`main` registers system sets keyed by `AppState`:
on update of `Game` the six gameplay systems (with no ordering constraints
between them), on update of `GameOver` only `restart_game`; `game_setup` on
enter of `Game`, `create_gameover_ui` on enter of `GameOver`, and
`scene_change_clean` on exit of both states. -/

/-- Names of the registered systems. -/
inductive SystemName
  | setup
  | game_setup
  | jump
  | spawn_pipes
  | check_collisions
  | apply_gravity
  | apply_velocity
  | remove_offscreen_pipes
  | scene_change_clean
  | create_gameover_ui
  | restart_game
deriving DecidableEq

/-- The systems registered for `SystemSet::on_update` of each state, in
registration order (registration order does not constrain execution order). -/
def on_update : AppState → List SystemName
  | AppState.Game =>
      [SystemName.jump, SystemName.spawn_pipes, SystemName.check_collisions,
       SystemName.apply_gravity, SystemName.apply_velocity,
       SystemName.remove_offscreen_pipes]
  | AppState.GameOver => [SystemName.restart_game]

/-- The world effect of the `SystemSet::on_exit` systems of a state:
both states register exactly `scene_change_clean`. -/
def on_exit_effect : AppState → World → World :=
  fun _ => scene_change_clean

/-- The world effect of the `SystemSet::on_enter` systems of a state:
`game_setup` for `Game`, `create_gameover_ui` for `GameOver`. -/
def on_enter_effect : AppState → World → World
  | AppState.Game => game_setup
  | AppState.GameOver => create_gameover_ui

/-- A queued round-state transition as bevy applies it: run the exit systems
of the state being left, then the enter systems of the state being entered. -/
def apply_transition (leaving entering : AppState) (w : World) : World :=
  on_enter_effect entering (on_exit_effect leaving w)

/-! ### Entity counting helpers -/

/-- Number of entities carrying the `Bird` marker (the controlled entity). -/
def birdCount (w : World) : Nat :=
  w.countP fun e => e.bird

/-- Number of entities carrying the `Pipe` marker (obstacles). -/
def pipeCount (w : World) : Nat :=
  w.countP fun e => e.pipe

/-- Number of entities carrying the `CleanOnSceneChange` marker
(the round-scoped entities). -/
def taggedCount (w : World) : Nat :=
  w.countP fun e => e.cleanOnSceneChange

/-- The bird after the first activation input of a round: the gravity flag
is set.  Used as a concrete input in witnesses. -/
def birdFalling : Entity :=
  { birdStart with gravity := some true }

/-- A concrete world: bird, pipe timer and one spawned pipe couple. -/
def exampleWorld : World :=
  [birdStart, timerStart, (spawn_pipe_couple 50 0).1, (spawn_pipe_couple 50 0).2]

/-! ### Helper lemmas about the collision fold -/

/-- A fold whose step function fixes the accumulator returns it unchanged. -/
theorem foldl_fixed {α β : Type} (f : α → β → α) (s : α) (h : ∀ b, f s b = s) :
    ∀ l : List β, l.foldl f s = s
  | [] => rfl
  | x :: xs => by rw [List.foldl_cons, h x]; exact foldl_fixed f s h xs

/-- Once the `GameOver` transition is queued, a further `set(GameOver).ok()`
leaves the state resource unchanged. -/
theorem setOk_queued (s : StateRes) (q next : AppState) (h : s.queued = some q) :
    setOk s next = s := by
  unfold setOk StateRes.set
  by_cases h1 : next = s.current
  · simp [h1]
  · simp [h1, h]

/-- The inner loop of `check_collisions`, started with the `GameOver`
transition already queued, leaves the state unchanged. -/
theorem inner_foldl_queued (b : Vec3) (cs : List Vec3) :
    cs.foldl (fun s2 c => if check_hit b c then setOk s2 AppState.GameOver else s2)
      ⟨AppState.Game, some AppState.GameOver⟩ =
      ⟨AppState.Game, some AppState.GameOver⟩ :=
  foldl_fixed _ _
    (fun c => by
      by_cases h : check_hit b c
      · simp only [h, if_true]
        exact setOk_queued _ _ _ rfl
      · simp [h])
    cs

/-- The inner loop of `check_collisions`, started from `Game` with nothing
queued, queues the `GameOver` transition exactly when some collider satisfies
the hit condition for this bird. -/
theorem inner_foldl_start (b : Vec3) :
    ∀ cs : List Vec3,
      cs.foldl (fun s2 c => if check_hit b c then setOk s2 AppState.GameOver else s2)
        ⟨AppState.Game, none⟩ =
      if cs.any (fun c => check_hit b c) then ⟨AppState.Game, some AppState.GameOver⟩
      else ⟨AppState.Game, none⟩
  | [] => by simp
  | c :: cs => by
      by_cases h : check_hit b c
      · rw [List.foldl_cons]
        simp only [h, if_true, List.any_cons, Bool.true_or]
        have hstep : setOk ⟨AppState.Game, none⟩ AppState.GameOver =
            ⟨AppState.Game, some AppState.GameOver⟩ := by
          simp [setOk, StateRes.set]
        rw [hstep]
        exact inner_foldl_queued b cs
      · rw [List.foldl_cons]
        simp only [h, if_false, List.any_cons, Bool.false_or]
        exact inner_foldl_start b cs

/-- `check_collisions`, started with the `GameOver` transition already
queued, leaves the state resource unchanged (the redundant `set` calls all
error and the errors are discarded). -/
theorem check_collisions_queued (birds colliders : List Vec3) :
    check_collisions birds colliders ⟨AppState.Game, some AppState.GameOver⟩ =
      ⟨AppState.Game, some AppState.GameOver⟩ :=
  foldl_fixed _ _ (fun b => inner_foldl_queued b colliders) birds

/-- `check_collisions`, run from `Game` with nothing queued, queues the
single `GameOver` transition exactly when a hit is detected. -/
theorem check_collisions_start (colliders : List Vec3) :
    ∀ birds : List Vec3,
      check_collisions birds colliders ⟨AppState.Game, none⟩ =
      if hitDetected birds colliders then ⟨AppState.Game, some AppState.GameOver⟩
      else ⟨AppState.Game, none⟩
  | [] => by simp [check_collisions, hitDetected]
  | b :: birds => by
      unfold check_collisions hitDetected
      rw [List.foldl_cons, List.any_cons]
      show List.foldl _
        (List.foldl
          (fun s2 c => if check_hit b c then setOk s2 AppState.GameOver else s2)
          (StateRes.mk AppState.Game none) colliders) birds = _
      rw [inner_foldl_start b colliders]
      by_cases h : colliders.any (fun c => check_hit b c)
      · rw [h]
        simp only [if_true, Bool.true_or]
        exact check_collisions_queued birds colliders
      · simp only [h, if_false, Bool.false_or]
        exact check_collisions_start colliders birds

/-- Counting with `p` after the teardown filter gives zero whenever every
entity satisfying `p` carries the `CleanOnSceneChange` tag. -/
theorem countP_clean_zero (p : Entity → Bool) (w : World)
    (h : ∀ e ∈ w, p e = true → e.cleanOnSceneChange = true) :
    (scene_change_clean w).countP p = 0 := by
  rw [List.countP_eq_zero]
  intro e he
  simp only [scene_change_clean, List.mem_filter, Bool.not_eq_true'] at he
  intro hp
  rw [h e he.1 hp] at he
  exact absurd he.2 (by simp)

/-- Filtering with `p` after the teardown filter gives the empty list
whenever every entity satisfying `p` carries the `CleanOnSceneChange` tag. -/
theorem filter_clean_nil (p : Entity → Bool) (w : World)
    (h : ∀ e ∈ w, p e = true → e.cleanOnSceneChange = true) :
    (scene_change_clean w).filter p = [] := by
  rw [List.filter_eq_nil_iff]
  intro e he
  simp only [scene_change_clean, List.mem_filter, Bool.not_eq_true'] at he
  intro hp
  rw [h e he.1 hp] at he
  exact absurd he.2 (by simp)

/-- No timer component survives the teardown filter whenever every entity
carrying one is tagged `CleanOnSceneChange`. -/
theorem filterMap_timer_clean_nil (w : World)
    (h : ∀ e ∈ w, e.pipeTimer.isSome = true → e.cleanOnSceneChange = true) :
    (scene_change_clean w).filterMap (fun e => e.pipeTimer) = [] := by
  rw [List.filterMap_eq_nil_iff]
  intro e he
  simp only [scene_change_clean, List.mem_filter, Bool.not_eq_true'] at he
  by_contra hne
  have hsome : e.pipeTimer.isSome = true := by
    cases hpt : e.pipeTimer with
    | none => exact absurd hpt hne
    | some t => simp
  rw [h e he.1 hsome] at he
  exact absurd he.2 (by simp)

/-! ### Claim theorems -/

/-- C10: for every tick in which zero collider entities exist, the collision
detector requests no round-state transition at all — even when the controlled
entity's vertical position is outside the field's bounds — because the bounds
test sits inside the per-obstacle loop.  With an empty collider query,
`check_collisions` leaves the state resource unchanged for every bird
position (in particular every out-of-bounds one), and no loop iteration
takes the hit branch. -/
theorem claim_C10 (birds : List Vec3) (st : StateRes) :
    check_collisions birds [] st = st ∧ hitDetected birds [] = false := by
  constructor
  · exact foldl_fixed _ _ (fun _ => rfl) birds
  · simp [hitDetected]

/-- C1 as stated is false: with the bird at y = 200 (above the upper bound
`HEIGHT / 2 = 120`) and zero obstacles, the detector registers no hit,
although the claim's right-hand side (rectangle overlap with some obstacle,
or out of bounds) holds via the out-of-bounds disjunct. -/
theorem claim_C1_counterexample :
    ¬ (hitDetected [⟨-(WIDTH / 4), 200, 0⟩] [] = true ↔
        (∃ c ∈ ([] : List Vec3), strictOverlap ⟨-(WIDTH / 4), 200, 0⟩ c) ∨
          outOfBounds ⟨-(WIDTH / 4), 200, 0⟩) := by
  intro h
  have h2 : outOfBounds ⟨-(WIDTH / 4), 200, 0⟩ := by
    left
    show (200 : ℚ) > HEIGHT / 2
    norm_num [HEIGHT]
  have h3 := h.mpr (Or.inr h2)
  exact absurd h3 (by simp [hitDetected])

/-- C1 (amended): for every tick while Playing, a round-ending hit is
detected iff the controlled entity's rectangle strictly overlaps some active
obstacle's rectangle on both axes (exact edge contact is a non-hit), or the
entity's vertical position exceeds the field's bounds while at least one
active obstacle exists — the out-of-bounds test is evaluated once per active
obstacle, so with zero obstacles it never fires. -/
theorem claim_C1_amended (b : Vec3) (colliders : List Vec3) :
    hitDetected [b] colliders = true ↔
      (∃ c ∈ colliders, strictOverlap b c) ∨
        (outOfBounds b ∧ colliders ≠ []) := by
  have base : hitDetected [b] colliders = true ↔
      ∃ c ∈ colliders, strictOverlap b c ∨ outOfBounds b := by
    simp [hitDetected, check_hit_iff]
  rw [base]
  constructor
  · rintro ⟨c, hc, hover | hoob⟩
    · exact Or.inl ⟨c, hc, hover⟩
    · refine Or.inr ⟨hoob, ?_⟩
      rintro rfl
      exact (List.not_mem_nil c) hc
  · rintro (⟨c, hc, hover⟩ | ⟨hoob, hne⟩)
    · exact ⟨c, hc, Or.inl hover⟩
    · obtain ⟨c, hc⟩ := List.exists_mem_of_ne_nil colliders hne
      exact ⟨c, hc, Or.inr hoob⟩

/-- C3 as stated is false for the restart path: a second restart request in
the same tick (two `Clicked` interactions) finds the `Game` transition
already queued, so `State::set` returns `StateAlreadyQueued`, which
`restart_game` unwraps — a panic, not a no-op. -/
theorem claim_C3_counterexample :
    restart_game [Interaction.Clicked, Interaction.Clicked]
        ⟨AppState.GameOver, none⟩ =
      Except.error StateError.StateAlreadyQueued :=
  rfl

/-- C3 (amended): redundant Ended-transition requests from multiple obstacle
hits within one tick are no-ops — `check_collisions` queues the `GameOver`
transition at most once, and once it is queued every further hit leaves the
state resource unchanged (the `set` error is discarded by `.ok()`); a single
restart request from Ended succeeds, but a redundant restart request is not
a no-op: `restart_game` unwraps the error (see the counterexample). -/
theorem claim_C3_amended :
    (∀ birds colliders : List Vec3,
        check_collisions birds colliders ⟨AppState.Game, none⟩ =
          if hitDetected birds colliders then ⟨AppState.Game, some AppState.GameOver⟩
          else ⟨AppState.Game, none⟩) ∧
    (∀ birds colliders : List Vec3,
        check_collisions birds colliders ⟨AppState.Game, some AppState.GameOver⟩ =
          ⟨AppState.Game, some AppState.GameOver⟩) ∧
    restart_game [Interaction.Clicked] ⟨AppState.GameOver, none⟩ =
      Except.ok ⟨AppState.GameOver, some AppState.Game⟩ :=
  ⟨fun birds colliders => check_collisions_start colliders birds,
   fun birds colliders => check_collisions_queued birds colliders,
   rfl⟩

/-- C4: for every entity carrying a velocity and any tick duration
`dt ≥ 0`, the Motion Integrator (`apply_velocity`) updates the position
exactly as `position + velocity * dt * 100` on the x and y axes, with no
bounds clamping and no other mutation: the resulting entity is the input
entity with only its translation replaced, and the z coordinate is
unchanged. -/
theorem claim_C4 (dt : ℚ) (v : ℚ × ℚ) (e : Entity) (_hdt : 0 ≤ dt)
    (hv : e.velocity = some v) :
    apply_velocity_entity dt e =
      { e with translation :=
          ⟨e.translation.x + v.1 * dt * 100,
           e.translation.y + v.2 * dt * 100,
           e.translation.z⟩ } := by
  unfold apply_velocity_entity
  rw [hv]
  have hz : e.translation.z + 0 * dt * 100 = e.translation.z := by ring
  rw [hz]

/-- Witness for C4 at `dt = 1/60` on a spawned pipe with velocity
`(-PIPE_SPEED, 0)`. -/
theorem claim_C4_witness :
    apply_velocity_entity (1 / 60) (spawn_pipe_couple 50 0).1 =
      { (spawn_pipe_couple 50 0).1 with translation :=
          ⟨(spawn_pipe_couple 50 0).1.translation.x + -PIPE_SPEED * (1 / 60) * 100,
           (spawn_pipe_couple 50 0).1.translation.y + 0 * (1 / 60) * 100,
           (spawn_pipe_couple 50 0).1.translation.z⟩ } :=
  claim_C4 (1 / 60) (-PIPE_SPEED, 0) (spawn_pipe_couple 50 0).1 (by norm_num) rfl

/-- C5: for the controlled entity (the query demands the `Bird` marker, a
velocity and the gravity flag) on every tick, if the falling-active flag is
true then `apply_gravity` yields exactly `vy - GRAVITY * dt` as the new
vertical velocity (and changes nothing else), and if the flag is false the
entity is unchanged. -/
theorem claim_C5 (dt : ℚ) (v : ℚ × ℚ) (e : Entity) (hv : e.velocity = some v)
    (hb : e.bird = true) :
    (e.gravity = some true →
      apply_gravity_entity dt e =
        { e with velocity := some (v.1, v.2 - GRAVITY * dt) }) ∧
    (e.gravity = some false → apply_gravity_entity dt e = e) := by
  obtain ⟨bd, pp, pt, cl, tag, vel, gr, itn, tr⟩ := e
  simp only at hv hb
  subst hv hb
  constructor
  · intro hg
    simp only at hg
    subst hg
    simp [apply_gravity_entity]
  · intro hg
    simp only at hg
    subst hg
    simp [apply_gravity_entity]

/-- Witness for C5 at `dt = 1/60`: the falling bird loses exactly
`GRAVITY * (1/60)` of vertical velocity, and the pre-first-input bird (flag
false) is unchanged. -/
theorem claim_C5_witness :
    apply_gravity_entity (1 / 60) birdFalling =
      { birdFalling with velocity := some (0, 0 - GRAVITY * (1 / 60)) } ∧
    apply_gravity_entity (1 / 60) birdStart = birdStart :=
  ⟨(claim_C5 (1 / 60) (0, 0) birdFalling rfl rfl).1 rfl,
   (claim_C5 (1 / 60) (0, 0) birdStart rfl rfl).2 rfl⟩

/-- C6: every edge-triggered activation input while Playing sets the
controlled entity's vertical velocity to exactly `JUMP_VELOCITY`,
overwriting whatever vertical velocity it had, and sets the gravity flag to
true; and the flag is permanent for the round: none of the per-tick systems
that touch the bird (`jump`, `apply_gravity`, `apply_velocity`) ever turns a
true flag off.  Without the key press, `jump` leaves the world untouched. -/
theorem claim_C6 (e : Entity) (v : ℚ × ℚ) (dt : ℚ)
    (hv : e.velocity = some v) (hg : e.gravity.isSome = true) (hb : e.bird = true) :
    jump_entity e =
      { e with gravity := some true, velocity := some (v.1, JUMP_VELOCITY) } ∧
    (e.gravity = some true →
      (jump_entity e).gravity = some true ∧
      (apply_gravity_entity dt e).gravity = some true ∧
      (apply_velocity_entity dt e).gravity = some true) ∧
    (∀ w : World, jump false w = w) ∧
    (∀ w : World, jump true w = w.map jump_entity) := by
  obtain ⟨bd, pp, pt, cl, tag, vel, gr, itn, tr⟩ := e
  simp only at hv hb
  subst hv hb
  obtain ⟨g, hgv⟩ := Option.isSome_iff_exists.mp hg
  simp only at hgv
  subst hgv
  refine ⟨by simp [jump_entity], ?_, fun w => rfl, fun w => rfl⟩
  intro hgt
  simp only [Option.some.injEq] at hgt
  subst hgt
  refine ⟨by simp [jump_entity], by simp [apply_gravity_entity], by simp [apply_velocity_entity]⟩

/-- Witness for C6: the falling bird (flag already true, velocity zero) gets
vertical velocity exactly `JUMP_VELOCITY` and keeps its flag through the
gravity and motion systems. -/
theorem claim_C6_witness :
    jump_entity birdFalling =
      { birdFalling with gravity := some true, velocity := some (0, JUMP_VELOCITY) } ∧
    (apply_gravity_entity (1 / 60) birdFalling).gravity = some true ∧
    (apply_velocity_entity (1 / 60) birdFalling).gravity = some true :=
  ⟨(claim_C6 birdFalling (0, 0) (1 / 60) rfl rfl rfl).1,
   ((claim_C6 birdFalling (0, 0) (1 / 60) rfl rfl rfl).2.1 rfl).2.1,
   ((claim_C6 birdFalling (0, 0) (1 / 60) rfl rfl rfl).2.1 rfl).2.2⟩

/-- C7: for every spawn event, with `hole_size` sampled from
`[MIN_HOLE_SIZE, MAX_HOLE_SIZE)` and `hole_height` from
`[MIN_HOLE_HEIGHT, MAX_HOLE_HEIGHT)` (the contract of `gen_range(lo..hi)`),
the upper obstacle's bottom edge minus the lower obstacle's top edge equals
`hole_size` exactly, and the gap is centred at `hole_height` (the midpoint
of the two facing edges is `hole_height`); the samples lie in the stated
half-open ranges. -/
theorem claim_C7 (hole_size hole_height : ℚ)
    (h1 : MIN_HOLE_SIZE ≤ hole_size) (h2 : hole_size < MAX_HOLE_SIZE)
    (h3 : MIN_HOLE_HEIGHT ≤ hole_height) (h4 : hole_height < MAX_HOLE_HEIGHT) :
    upperBottomEdge (spawn_pipe_couple hole_size hole_height).1 -
        lowerTopEdge (spawn_pipe_couple hole_size hole_height).2 = hole_size ∧
    (upperBottomEdge (spawn_pipe_couple hole_size hole_height).1 +
        lowerTopEdge (spawn_pipe_couple hole_size hole_height).2) / 2 = hole_height ∧
    (MIN_HOLE_SIZE ≤ hole_size ∧ hole_size < MAX_HOLE_SIZE) ∧
    (MIN_HOLE_HEIGHT ≤ hole_height ∧ hole_height < MAX_HOLE_HEIGHT) := by
  refine ⟨?_, ?_, ⟨h1, h2⟩, ⟨h3, h4⟩⟩
  · simp only [upperBottomEdge, lowerTopEdge, spawn_pipe_couple]
    ring
  · simp only [upperBottomEdge, lowerTopEdge, spawn_pipe_couple]
    ring

/-- Witness for C7 at `hole_size = 50`, `hole_height = 0`. -/
theorem claim_C7_witness :
    upperBottomEdge (spawn_pipe_couple 50 0).1 -
        lowerTopEdge (spawn_pipe_couple 50 0).2 = 50 ∧
    (upperBottomEdge (spawn_pipe_couple 50 0).1 +
        lowerTopEdge (spawn_pipe_couple 50 0).2) / 2 = 0 ∧
    (MIN_HOLE_SIZE ≤ 50 ∧ (50 : ℚ) < MAX_HOLE_SIZE) ∧
    (MIN_HOLE_HEIGHT ≤ 0 ∧ (0 : ℚ) < MAX_HOLE_HEIGHT) :=
  claim_C7 50 0 (by norm_num [MIN_HOLE_SIZE]) (by norm_num [MAX_HOLE_SIZE])
    (by norm_num [MIN_HOLE_HEIGHT, HEIGHT]) (by norm_num [MAX_HOLE_HEIGHT, HEIGHT])

/-- C8: on every round-state transition, in either direction, the single
teardown routine `scene_change_clean` destroys every entity tagged
`CleanOnSceneChange` (immediately after teardown, zero tagged entities
remain); every round-scoped spawn site (`game_setup`'s bird and timer,
`spawn_pipe_couple`'s two pipes, `create_gameover_ui`'s image and button)
attaches that tag; consequently, provided every bird and pipe of the
pre-transition world carries the tag, any transition into `Game` leaves
exactly one controlled entity and zero obstacles, and any transition into
`GameOver` leaves zero controlled entities and zero obstacles — so no
obstacle outlives the round in which it was created. -/
theorem claim_C8 (w : World) (s : AppState)
    (hbird : ∀ e ∈ w, e.bird = true → e.cleanOnSceneChange = true)
    (hpipe : ∀ e ∈ w, e.pipe = true → e.cleanOnSceneChange = true) :
    taggedCount (scene_change_clean w) = 0 ∧
    birdCount (apply_transition s AppState.Game w) = 1 ∧
    birdCount (apply_transition s AppState.GameOver w) = 0 ∧
    pipeCount (apply_transition s AppState.Game w) = 0 ∧
    pipeCount (apply_transition s AppState.GameOver w) = 0 ∧
    birdStart.cleanOnSceneChange = true ∧
    timerStart.cleanOnSceneChange = true ∧
    (∀ hs hh : ℚ, (spawn_pipe_couple hs hh).1.cleanOnSceneChange = true ∧
      (spawn_pipe_couple hs hh).2.cleanOnSceneChange = true) ∧
    gameoverImage.cleanOnSceneChange = true ∧
    restartButton.cleanOnSceneChange = true := by
  have hb0 : (scene_change_clean w).countP (fun e => e.bird) = 0 :=
    countP_clean_zero _ w hbird
  have hp0 : (scene_change_clean w).countP (fun e => e.pipe) = 0 :=
    countP_clean_zero _ w hpipe
  refine ⟨?_, ?_, ?_, ?_, ?_, rfl, rfl, fun hs hh => ⟨rfl, rfl⟩, rfl, rfl⟩
  · exact countP_clean_zero _ w (fun e _ ht => ht)
  · simp [birdCount, apply_transition, on_exit_effect, on_enter_effect, game_setup,
      List.countP_append, hb0, List.countP_cons, birdStart, timerStart]
  · simp [birdCount, apply_transition, on_exit_effect, on_enter_effect, create_gameover_ui,
      List.countP_append, hb0, List.countP_cons, gameoverImage, restartButton]
  · simp [pipeCount, apply_transition, on_exit_effect, on_enter_effect, game_setup,
      List.countP_append, hp0, List.countP_cons, birdStart, timerStart]
  · simp [pipeCount, apply_transition, on_exit_effect, on_enter_effect, create_gameover_ui,
      List.countP_append, hp0, List.countP_cons, gameoverImage, restartButton]

/-- Witness for C8 on a concrete mid-round world (bird, timer, one pipe
couple), taking the transition out of `Game`. -/
theorem claim_C8_witness :
    taggedCount (scene_change_clean exampleWorld) = 0 ∧
    birdCount (apply_transition AppState.Game AppState.Game exampleWorld) = 1 ∧
    birdCount (apply_transition AppState.Game AppState.GameOver exampleWorld) = 0 ∧
    pipeCount (apply_transition AppState.Game AppState.Game exampleWorld) = 0 ∧
    pipeCount (apply_transition AppState.Game AppState.GameOver exampleWorld) = 0 := by
  have h := claim_C8 exampleWorld AppState.Game
    (by
      intro e he ht
      simp only [exampleWorld, List.mem_cons, List.not_mem_nil, or_false] at he
      rcases he with rfl | rfl | rfl | rfl <;> rfl)
    (by
      intro e he ht
      simp only [exampleWorld, List.mem_cons, List.not_mem_nil, or_false] at he
      rcases he with rfl | rfl | rfl | rfl <;> rfl)
  exact ⟨h.1, h.2.1, h.2.2.1, h.2.2.2.1, h.2.2.2.2.1⟩

/-- C9: every restart from Ended (`GameOver → Game`, and likewise the
initial entry into Playing, which runs the same `game_setup` on a world with
no round-scoped entities) yields exactly one controlled entity — the bird at
its fixed start position `(-(WIDTH/4), 0, 0)` with zero velocity and the
falling-active flag false — zero obstacles, and a single fresh spawn timer
with zero elapsed time; and a restart input arriving while Playing is
ignored, because `restart_game` is not among the systems that run on update
of `Game`. -/
theorem claim_C9 (w : World)
    (h : ∀ e ∈ w, (e.bird || e.pipe || e.pipeTimer.isSome) = true →
          e.cleanOnSceneChange = true) :
    (apply_transition AppState.GameOver AppState.Game w).filter (fun e => e.bird) =
      [birdStart] ∧
    birdStart.translation = ⟨-(WIDTH / 4), 0, 0⟩ ∧
    birdStart.velocity = some (0, 0) ∧
    birdStart.gravity = some false ∧
    (apply_transition AppState.GameOver AppState.Game w).filter (fun e => e.pipe) = [] ∧
    (apply_transition AppState.GameOver AppState.Game w).filterMap (fun e => e.pipeTimer) =
      [Timer.from_seconds 1 TimerMode.Repeating] ∧
    (Timer.from_seconds 1 TimerMode.Repeating).elapsed = 0 ∧
    SystemName.restart_game ∉ on_update AppState.Game := by
  have hb : (scene_change_clean w).filter (fun e => e.bird) = [] :=
    filter_clean_nil _ w (fun e he hp => h e he (by simp [hp]))
  have hp : (scene_change_clean w).filter (fun e => e.pipe) = [] :=
    filter_clean_nil _ w (fun e he hp => h e he (by simp [hp]))
  have ht : (scene_change_clean w).filterMap (fun e => e.pipeTimer) = [] :=
    filterMap_timer_clean_nil w (fun e he hp => h e he (by simp [hp]))
  refine ⟨?_, rfl, rfl, rfl, ?_, ?_, rfl, by decide⟩
  · simp [apply_transition, on_exit_effect, on_enter_effect, game_setup,
      List.filter_append, hb, birdStart, timerStart]
  · simp [apply_transition, on_exit_effect, on_enter_effect, game_setup,
      List.filter_append, hp, birdStart, timerStart]
  · simp [apply_transition, on_exit_effect, on_enter_effect, game_setup,
      List.filterMap_append, ht, birdStart, timerStart]

/-- Witness for C9 restarting from a concrete ended-round world (a dead bird,
its timer, a leftover pipe couple and the game-over UI). -/
theorem claim_C9_witness :
    (apply_transition AppState.GameOver AppState.Game
        (exampleWorld ++ [gameoverImage, restartButton])).filter (fun e => e.bird) =
      [birdStart] ∧
    (apply_transition AppState.GameOver AppState.Game
        (exampleWorld ++ [gameoverImage, restartButton])).filter (fun e => e.pipe) = [] ∧
    (apply_transition AppState.GameOver AppState.Game
        (exampleWorld ++ [gameoverImage, restartButton])).filterMap
      (fun e => e.pipeTimer) = [Timer.from_seconds 1 TimerMode.Repeating] := by
  have h := claim_C9 (exampleWorld ++ [gameoverImage, restartButton])
    (by
      intro e he ht
      simp only [exampleWorld, List.mem_append, List.mem_cons, List.not_mem_nil,
        or_false] at he
      rcases he with (rfl | rfl | rfl | rfl) | (rfl | rfl) <;> rfl)
  exact ⟨h.1, h.2.2.2.2.1, h.2.2.2.2.2.1⟩

end FlappyBevy
